import Mathlib

/-!
Verification development for the DeFi-Butler intent pipeline.

The definitions below are a shallow embedding of the repository's
TypeScript sources:
* `src/src/services/ensService.ts` (preference parsing, profile resolution),
* `src/src/services/yieldService.ts` (yield aggregation, cache, query filters),
* the LI.FI service (`getBestRoute`, `composeIntentWithDeposit`,
  `executeComposedIntent`),
* `src/src/hooks/useIntent.ts` (the intent lifecycle state machine).

Network calls and wallet interactions are modelled as explicit inputs
(oracles): a function that awaits a fetch takes the would-be fetched data as
a parameter.  JavaScript numbers are modelled as `Rat` (for APY/TVL values,
where only ordering matters) or `Int`/`Nat`; JavaScript string operations
are modelled by their ASCII counterparts.
-/

namespace DeFiButler

/-! ## JavaScript string and number helpers -/

/-- `s.toLowerCase()` (ASCII fragment, which covers every value the sources
produce). -/
def toLowerStr (s : String) : String := String.mk (s.toList.map Char.toLower)

/-- `s.toUpperCase()` (ASCII fragment). -/
def toUpperStr (s : String) : String := String.mk (s.toList.map Char.toUpper)

/-- `s.trim()` (ASCII whitespace fragment): strip leading and trailing
whitespace. -/
def trimStr (s : String) : String :=
  let ws := fun c : Char => c = ' ' ∨ c = '\t' ∨ c = '\n' ∨ c = '\r'
  String.mk (((s.toList.dropWhile ws).reverse.dropWhile ws).reverse)

/-- Leading decimal digits of a character list, or `none` when there are
none (the `NaN` case of `parseInt`). -/
def leadingDigits (cs : List Char) : Option Nat :=
  let ds := cs.takeWhile Char.isDigit
  if ds.isEmpty then none
  else some (ds.foldl (fun a c => a * 10 + (c.toNat - 48)) 0)

/-- JavaScript `parseInt(s, 10)`: skip leading whitespace, optional sign,
then the longest digit run; `none` models `NaN`.  Trailing garbage is
ignored, as in JavaScript. -/
def parseIntJs (s : String) : Option Int :=
  let cs := s.toList.dropWhile (fun c => c = ' ' ∨ c = '\t' ∨ c = '\n' ∨ c = '\r')
  match cs with
  | '-' :: rest => (leadingDigits rest).map (fun n => -(n : Int))
  | '+' :: rest => (leadingDigits rest).map (fun n => (n : Int))
  | _ => (leadingDigits cs).map (fun n => (n : Int))

/-! ## JSON values

`JSON.parse` is a JavaScript builtin; we model the fragment of JSON the
preference records use: null, booleans, integer numbers, strings with the
common escapes, arrays and objects.  Anything outside this fragment is a
parse failure, which the source treats identically to malformed input. -/

inductive Json where
  | null
  | bool (b : Bool)
  | num (n : Int)
  | str (s : String)
  | arr (elems : List Json)
  | obj (fields : List (String × Json))

/-- `typeof v === 'object'` for a parsed JSON value: true for objects,
arrays and (a JavaScript quirk) `null`. -/
def Json.isObjectTypeof : Json → Bool
  | .null => true
  | .arr _ => true
  | .obj _ => true
  | _ => false

/-- Extract the strings of an all-string JSON array, `none` if any element
is not a string. -/
def Json.asStringList : List Json → Option (List String)
  | [] => some []
  | .str s :: rest => (Json.asStringList rest).map (fun l => s :: l)
  | _ :: _ => none

/-- JSON whitespace. -/
def jsonSkipWs (cs : List Char) : List Char :=
  cs.dropWhile (fun c => c = ' ' ∨ c = '\t' ∨ c = '\n' ∨ c = '\r')

/-- Parse a JSON string body (after the opening quote).  Supports the
simple escapes; `\u` escapes are outside the modelled fragment. -/
def pStr : List Char → String → Option (String × List Char)
  | [], _ => none
  | '"' :: rest, acc => some (acc, rest)
  | '\\' :: e :: rest, acc =>
    match e with
    | '"' => pStr rest (acc.push '"')
    | '\\' => pStr rest (acc.push '\\')
    | '/' => pStr rest (acc.push '/')
    | 'n' => pStr rest (acc.push '\n')
    | 't' => pStr rest (acc.push '\t')
    | 'r' => pStr rest (acc.push '\r')
    | _ => none
  | c :: rest, acc => pStr rest (acc.push c)

/-- Parse a JSON integer literal (an optional minus sign and digits, not
followed by a fraction or exponent). -/
def pNum (cs : List Char) : Option (Json × List Char) :=
  let (neg, cs') := match cs with
    | '-' :: rest => (true, rest)
    | _ => (false, cs)
  match leadingDigits cs' with
  | none => none
  | some n =>
    let rest := cs'.dropWhile Char.isDigit
    match rest with
    | '.' :: _ => none
    | 'e' :: _ => none
    | 'E' :: _ => none
    | _ => some (if neg then (.num (-(n : Int)), rest) else (.num (n : Int), rest))

mutual

/-- Fuel-based recursive-descent parser for the modelled JSON fragment. -/
def pJson : Nat → List Char → Option (Json × List Char)
  | 0, _ => none
  | fuel + 1, cs =>
    match jsonSkipWs cs with
    | 'n' :: 'u' :: 'l' :: 'l' :: rest => some (.null, rest)
    | 't' :: 'r' :: 'u' :: 'e' :: rest => some (.bool true, rest)
    | 'f' :: 'a' :: 'l' :: 's' :: 'e' :: rest => some (.bool false, rest)
    | '"' :: rest => (pStr rest "").map (fun p => (.str p.1, p.2))
    | '[' :: rest =>
      (match jsonSkipWs rest with
       | ']' :: rest' => some (.arr [], rest')
       | rest' => (pArrElems fuel rest').map (fun p => (.arr p.1, p.2)))
    | '{' :: rest =>
      (match jsonSkipWs rest with
       | '}' :: rest' => some (.obj [], rest')
       | rest' => (pObjFields fuel rest').map (fun p => (.obj p.1, p.2)))
    | cs' => pNum cs'

/-- Parse one or more array elements separated by commas, then `]`. -/
def pArrElems : Nat → List Char → Option (List Json × List Char)
  | 0, _ => none
  | fuel + 1, cs =>
    match pJson fuel cs with
    | none => none
    | some (j, rest) =>
      match jsonSkipWs rest with
      | ',' :: rest' =>
        (pArrElems fuel rest').map (fun p => (j :: p.1, p.2))
      | ']' :: rest' => some ([j], rest')
      | _ => none

/-- Parse one or more `"key": value` fields separated by commas, then `}`. -/
def pObjFields : Nat → List Char → Option (List (String × Json) × List Char)
  | 0, _ => none
  | fuel + 1, cs =>
    match jsonSkipWs cs with
    | '"' :: rest =>
      match pStr rest "" with
      | none => none
      | some (k, rest') =>
        match jsonSkipWs rest' with
        | ':' :: rest'' =>
          match pJson fuel rest'' with
          | none => none
          | some (v, rest''') =>
            match jsonSkipWs rest''' with
            | ',' :: more =>
              (pObjFields fuel more).map (fun p => ((k, v) :: p.1, p.2))
            | '}' :: more => some ([(k, v)], more)
            | _ => none
        | _ => none
    | _ => none

end

/-- `JSON.parse(s)` for the modelled fragment: the whole input must be one
JSON value followed only by whitespace; `none` models a thrown
`SyntaxError`. -/
def jsonParse (s : String) : Option Json :=
  match pJson (s.length + 1) s.toList with
  | none => none
  | some (j, rest) => if (jsonSkipWs rest).isEmpty then some j else none

/-! ## Data model (`src/src/types/index.ts`)

Whitelist/blacklist preference fields are assigned verbatim from parsed
JSON arrays by the source, so they are modelled as lists of JSON values;
every other string field is a plain `String`. -/

inductive RiskLevel where
  | low
  | medium
  | high
deriving DecidableEq

inductive RiskTolerance where
  | conservative
  | moderate
  | aggressive
deriving DecidableEq

inductive DefaultAction where
  | deposit
  | bridge
  | swap
deriving DecidableEq

structure UserPreferences where
  preferredChains : List String
  riskTolerance : RiskTolerance
  maxSlippageBps : Int
  defaultAction : DefaultAction
  whitelistedProtocols : List Json
  blacklistedProtocols : List Json
  minLiquidityUsd : Int
  strategyFollow : Option String
  autoRebalance : Bool
  notificationPrefs : Json

/-- The yield-intent text records of a handle, as returned by
`getAllTextRecords`: each `com.yieldintent.*` key is present (`some`) or
absent (`none`). -/
structure ENSTextRecords where
  preferredChains : Option String := none
  riskTolerance : Option String := none
  maxSlippageBps : Option String := none
  defaultAction : Option String := none
  whitelistedProtocols : Option String := none
  blacklistedProtocols : Option String := none
  minLiquidityUsd : Option String := none
  strategyFollow : Option String := none
  autoRebalance : Option String := none
  notificationPrefs : Option String := none

/-- `RISK_TOLERANCE_MAP` from `src/src/types/index.ts`. -/
def RISK_TOLERANCE_MAP : RiskTolerance → List String
  | .conservative => ["aave-v3", "compound-v3", "morpho", "spark"]
  | .moderate => ["aave-v3", "compound-v3", "morpho", "spark", "yearn-v3"]
  | .aggressive =>
    ["aave-v3", "compound-v3", "morpho", "spark", "yearn-v3", "pendle", "silo"]

/-- `DEFAULT_PREFERENCES` from `src/src/types/index.ts`. -/
def DEFAULT_PREFERENCES : UserPreferences where
  preferredChains := ["base", "arbitrum", "optimism"]
  riskTolerance := .moderate
  maxSlippageBps := 100
  defaultAction := .deposit
  whitelistedProtocols := []
  blacklistedProtocols := []
  minLiquidityUsd := 100000
  strategyFollow := none
  autoRebalance := false
  notificationPrefs := .obj []

/-! ## Preference parsing (`src/src/services/ensService.ts`, `parsePreferences`) -/

/-- The closed enum check `['conservative','moderate','aggressive'].includes(risk)`
together with the cast of the record value. -/
def parseRiskToleranceStr (s : String) : Option RiskTolerance :=
  if s = "conservative" then some .conservative
  else if s = "moderate" then some .moderate
  else if s = "aggressive" then some .aggressive
  else none

/-- The closed enum check `['deposit','bridge','swap'].includes(action)`. -/
def parseDefaultActionStr (s : String) : Option DefaultAction :=
  if s = "deposit" then some .deposit
  else if s = "bridge" then some .bridge
  else if s = "swap" then some .swap
  else none

/-! `parsePreferences` starts from `DEFAULT_PREFERENCES` and updates one
field per block of the source, in source order; each block below is one
step function.  A record is skipped when absent or empty (the JavaScript
truthiness check `if (records[k])`), and a field keeps its previous value
when its record does not parse. -/

/-- Parse preferred chains: a JSON array whose elements are lowercased.
A non-string element makes `c.toLowerCase()` throw, and the catch keeps
the default. -/
def stepPreferredChains (records : ENSTextRecords) (prefs : UserPreferences) :
    UserPreferences :=
  match records.preferredChains with
  | some s =>
    if s = "" then prefs else
    match jsonParse s with
    | some (.arr elems) =>
      match Json.asStringList elems with
      | some chains => { prefs with preferredChains := chains.map toLowerStr }
      | none => prefs
    | _ => prefs
  | none => prefs

/-- Parse risk tolerance: a valid value also sets `whitelistedProtocols`
to the risk-derived protocol set (`RISK_TOLERANCE_MAP`). -/
def stepRiskTolerance (records : ENSTextRecords) (prefs : UserPreferences) :
    UserPreferences :=
  match records.riskTolerance with
  | some s =>
    if s = "" then prefs else
    match parseRiskToleranceStr s with
    | some risk =>
      { prefs with
          riskTolerance := risk,
          whitelistedProtocols := (RISK_TOLERANCE_MAP risk).map Json.str }
    | none => prefs
  | none => prefs

/-- Parse max slippage: `parseInt`, range-checked to `(0, 1000]`. -/
def stepMaxSlippage (records : ENSTextRecords) (prefs : UserPreferences) :
    UserPreferences :=
  match records.maxSlippageBps with
  | some s =>
    if s = "" then prefs else
    match parseIntJs s with
    | some slippage =>
      if 0 < slippage ∧ slippage ≤ 1000 then
        { prefs with maxSlippageBps := slippage }
      else prefs
    | none => prefs
  | none => prefs

/-- Parse default action: closed enum check. -/
def stepDefaultAction (records : ENSTextRecords) (prefs : UserPreferences) :
    UserPreferences :=
  match records.defaultAction with
  | some s =>
    if s = "" then prefs else
    match parseDefaultActionStr s with
    | some action => { prefs with defaultAction := action }
    | none => prefs
  | none => prefs

/-- Parse whitelisted protocols: a JSON array is assigned verbatim;
invalid JSON keeps the value set so far (possibly the risk-derived set). -/
def stepWhitelisted (records : ENSTextRecords) (prefs : UserPreferences) :
    UserPreferences :=
  match records.whitelistedProtocols with
  | some s =>
    if s = "" then prefs else
    match jsonParse s with
    | some (.arr protocols) => { prefs with whitelistedProtocols := protocols }
    | _ => prefs
  | none => prefs

/-- Parse blacklisted protocols: a JSON array is assigned verbatim. -/
def stepBlacklisted (records : ENSTextRecords) (prefs : UserPreferences) :
    UserPreferences :=
  match records.blacklistedProtocols with
  | some s =>
    if s = "" then prefs else
    match jsonParse s with
    | some (.arr protocols) => { prefs with blacklistedProtocols := protocols }
    | _ => prefs
  | none => prefs

/-- Parse min liquidity: `parseInt`, non-negative. -/
def stepMinLiquidity (records : ENSTextRecords) (prefs : UserPreferences) :
    UserPreferences :=
  match records.minLiquidityUsd with
  | some s =>
    if s = "" then prefs else
    match parseIntJs s with
    | some liquidity =>
      if 0 ≤ liquidity then { prefs with minLiquidityUsd := liquidity }
      else prefs
    | none => prefs
  | none => prefs

/-- Parse strategy follow: any truthy value is stored unvalidated. -/
def stepStrategyFollow (records : ENSTextRecords) (prefs : UserPreferences) :
    UserPreferences :=
  match records.strategyFollow with
  | some s => if s = "" then prefs else { prefs with strategyFollow := some s }
  | none => prefs

/-- Parse auto rebalance: `value === 'true'`. -/
def stepAutoRebalance (records : ENSTextRecords) (prefs : UserPreferences) :
    UserPreferences :=
  match records.autoRebalance with
  | some s => if s = "" then prefs else { prefs with autoRebalance := s = "true" }
  | none => prefs

/-- Parse notification preferences: any JSON value with
`typeof === 'object'` is assigned. -/
def stepNotificationPrefs (records : ENSTextRecords) (prefs : UserPreferences) :
    UserPreferences :=
  match records.notificationPrefs with
  | some s =>
    if s = "" then prefs else
    match jsonParse s with
    | some notifs =>
      if notifs.isObjectTypeof then { prefs with notificationPrefs := notifs }
      else prefs
    | none => prefs
  | none => prefs

/-- `parsePreferences` from `ensService.ts`: the blocks above applied to
`DEFAULT_PREFERENCES` in source order. -/
def parsePreferences (records : ENSTextRecords) : UserPreferences :=
  stepNotificationPrefs records
    (stepAutoRebalance records
      (stepStrategyFollow records
        (stepMinLiquidity records
          (stepBlacklisted records
            (stepWhitelisted records
              (stepDefaultAction records
                (stepMaxSlippage records
                  (stepRiskTolerance records
                    (stepPreferredChains records DEFAULT_PREFERENCES)))))))))

/-! ## Profile resolution (`src/src/services/ensService.ts`, `getProfile`)

The naming lookup collaborator (address resolution, text-record reads,
avatar) is external; it is modelled as an environment of functions. -/

structure ENSProfile where
  name : String
  address : String
  avatar : Option String
  preferences : UserPreferences
  isFollowingStrategy : Bool
  followedStrategyOwner : Option String

/-- The external naming collaborator: per-handle address resolution, text
records, and avatar. -/
structure EnsEnv where
  resolve : String → Option String
  records : String → ENSTextRecords
  avatar : String → Option String

/-- `getAllTextRecords`: each underlying `getTextRecord` call normalises
the handle (`name.toLowerCase().trim()`) before querying. -/
def getAllTextRecords (env : EnsEnv) (name : String) : ENSTextRecords :=
  env.records (trimStr (toLowerStr name))

/-- `getProfile` from `ensService.ts`: resolve the address, read the
handle's records, and — when a truthy `strategyFollow` record is present —
parse the preferences from the delegate's records instead (one level of
indirection; the delegate's own `strategyFollow` record is only stored in
the parsed preferences, never followed). -/
def getProfile (env : EnsEnv) (name : String) : Option ENSProfile :=
  let normalizedName := trimStr (toLowerStr name)
  match env.resolve normalizedName with
  | none => none
  | some address =>
    let records := getAllTextRecords env normalizedName
    match records.strategyFollow with
    | some follow =>
      if follow = "" then
        some { name := normalizedName, address := address
               avatar := env.avatar normalizedName
               preferences := parsePreferences records
               isFollowingStrategy := false, followedStrategyOwner := none }
      else
        some { name := normalizedName, address := address
               avatar := env.avatar normalizedName
               preferences := parsePreferences (getAllTextRecords env follow)
               isFollowingStrategy := true, followedStrategyOwner := some follow }
    | none =>
      some { name := normalizedName, address := address
             avatar := env.avatar normalizedName
             preferences := parsePreferences records
             isFollowingStrategy := false, followedStrategyOwner := none }

/-! ## Yield aggregation (`src/src/services/yieldService.ts`)

The per-source fetchers are network adapters; `fetchAllYields` takes the
lists each enabled source (DefiLlama, Yearn) would contribute as explicit
inputs, and threads the cache map and the current time explicitly. -/

structure ParamDescriptor where
  name : String
  type : String
deriving DecidableEq

structure YieldMetadata where
  protocolName : String
  protocolIcon : String
  tokenIcon : String
  vaultName : String
  vaultVersion : Option String := none
  isAudited : Bool
  auditInfo : Option (List String) := none
deriving DecidableEq

structure YieldOpportunity where
  id : String
  protocol : String
  protocolSlug : String
  chainId : Nat
  chainName : String
  token : String
  tokenAddress : String
  vaultAddress : String
  apy : Rat
  tvlUsd : Rat
  riskLevel : RiskLevel
  depositFunction : String
  depositParams : List ParamDescriptor
  withdrawalFunction : String
  withdrawalParams : List ParamDescriptor
  metadata : YieldMetadata
deriving DecidableEq

structure YieldQueryParams where
  chainId : Option Nat := none
  token : Option String := none
  minApy : Option Rat := none
  maxApy : Option Rat := none
  minTvlUsd : Option Rat := none
  riskTolerance : Option RiskTolerance := none
  whitelistedProtocols : Option (List String) := none
  blacklistedProtocols : Option (List String) := none
  limit : Option Nat := none

/-- Association-list lookup, modelling `Map.get` / index access. -/
def assocGet {α β : Type} [DecidableEq α] : List (α × β) → α → Option β
  | [], _ => none
  | (k, v) :: rest, key => if k = key then some v else assocGet rest key

/-- Association-list insert-or-replace, modelling `Map.set`. -/
def assocSet {α β : Type} [DecidableEq α] : List (α × β) → α → β → List (α × β)
  | [], key, value => [(key, value)]
  | (k, v) :: rest, key, value =>
    if k = key then (key, value) :: rest else (k, v) :: assocSet rest key value

structure CacheEntry where
  data : List YieldOpportunity
  timestamp : Nat
deriving DecidableEq

/-- The mutable state of a `YieldService` instance: its cache map. -/
structure YieldServiceState where
  cache : List (String × CacheEntry)
deriving DecidableEq

/-- `CACHE_TTL = 5 * 60 * 1000` (milliseconds). -/
def CACHE_TTL : Nat := 5 * 60 * 1000

/-- `allYields.sort((a, b) => b.apy - a.apy)`: stable sort, descending by
APY (the comparator keeps `a` before `b` exactly when `b.apy ≤ a.apy`). -/
def sortByApyDesc (ys : List YieldOpportunity) : List YieldOpportunity :=
  ys.mergeSort (fun a b => decide (b.apy ≤ a.apy))

structure FetchAllResult where
  data : List YieldOpportunity
  state : YieldServiceState
  fetchedFromSources : Bool
deriving DecidableEq

/-- `fetchAllYields`: consult the cache under the fixed key `all-yields`;
on a hit younger than the TTL return the cached superset untouched,
otherwise fetch both sources, concatenate, sort by APY descending, and
cache the result with the current timestamp.  `fetchedFromSources` records
whether the source fetches were issued. -/
def fetchAllYields (st : YieldServiceState) (now : Nat)
    (defiLlamaYields yearnYields : List YieldOpportunity) : FetchAllResult :=
  let cacheKey := "all-yields"
  let refetch : FetchAllResult :=
    let allYields := sortByApyDesc (defiLlamaYields ++ yearnYields)
    ⟨allYields, ⟨assocSet st.cache cacheKey ⟨allYields, now⟩⟩, true⟩
  match assocGet st.cache cacheKey with
  | some cached =>
    if now - cached.timestamp < CACHE_TTL then ⟨cached.data, st, false⟩
    else refetch
  | none => refetch

/-- `clearCache`: `this.cache.clear()`. -/
def clearCache (_st : YieldServiceState) : YieldServiceState := ⟨[]⟩

/-- The `riskLevels` table inside `queryYields`. -/
def allowedRiskLevels : RiskTolerance → List RiskLevel
  | .conservative => [.low]
  | .moderate => [.low, .medium]
  | .aggressive => [.low, .medium, .high]

/-! The filter pipeline of `queryYields` is one stage per `if` block of
the source, applied in source order.  Guards mirror the JavaScript
truthiness checks: `chainId`/`limit` are skipped when `0`, `token` when
empty, the protocol lists when empty; the APY/TVL bounds use explicit
`!== undefined` checks and therefore apply whenever present. -/

/-- `if (params.chainId) { yields = yields.filter(...) }` -/
def applyChainFilter (params : YieldQueryParams) (ys : List YieldOpportunity) :
    List YieldOpportunity :=
  match params.chainId with
  | some c => if c ≠ 0 then ys.filter (fun y => y.chainId == c) else ys
  | none => ys

/-- `if (params.token) { ... }` (case-insensitive symbol equality). -/
def applyTokenFilter (params : YieldQueryParams) (ys : List YieldOpportunity) :
    List YieldOpportunity :=
  match params.token with
  | some t =>
    if t ≠ "" then
      let tokenUpper := toUpperStr t
      ys.filter (fun y => toUpperStr y.token == tokenUpper)
    else ys
  | none => ys

/-- `if (params.minApy !== undefined) { ... }` -/
def applyMinApyFilter (params : YieldQueryParams) (ys : List YieldOpportunity) :
    List YieldOpportunity :=
  match params.minApy with
  | some m => ys.filter (fun y => decide (m ≤ y.apy))
  | none => ys

/-- `if (params.maxApy !== undefined) { ... }` -/
def applyMaxApyFilter (params : YieldQueryParams) (ys : List YieldOpportunity) :
    List YieldOpportunity :=
  match params.maxApy with
  | some m => ys.filter (fun y => decide (y.apy ≤ m))
  | none => ys

/-- `if (params.minTvlUsd !== undefined) { ... }` -/
def applyMinTvlFilter (params : YieldQueryParams) (ys : List YieldOpportunity) :
    List YieldOpportunity :=
  match params.minTvlUsd with
  | some m => ys.filter (fun y => decide (m ≤ y.tvlUsd))
  | none => ys

/-- `if (params.riskTolerance) { ... }`: keep the risk levels allowed for
the requested tolerance. -/
def applyRiskFilter (params : YieldQueryParams) (ys : List YieldOpportunity) :
    List YieldOpportunity :=
  match params.riskTolerance with
  | some rt =>
    let allowed := allowedRiskLevels rt
    ys.filter (fun y => allowed.contains y.riskLevel)
  | none => ys

/-- `if (params.whitelistedProtocols?.length) { ... }`: keep slugs in the
lowercased whitelist. -/
def applyWhitelistFilter (params : YieldQueryParams) (ys : List YieldOpportunity) :
    List YieldOpportunity :=
  match params.whitelistedProtocols with
  | some wl =>
    if wl ≠ [] then
      let whitelist := wl.map toLowerStr
      ys.filter (fun y => whitelist.contains y.protocolSlug)
    else ys
  | none => ys

/-- `if (params.blacklistedProtocols?.length) { ... }`: drop slugs in the
lowercased blacklist (applied after the whitelist stage). -/
def applyBlacklistFilter (params : YieldQueryParams) (ys : List YieldOpportunity) :
    List YieldOpportunity :=
  match params.blacklistedProtocols with
  | some bl =>
    if bl ≠ [] then
      let blacklist := bl.map toLowerStr
      ys.filter (fun y => !(blacklist.contains y.protocolSlug))
    else ys
  | none => ys

/-- `if (params.limit) { yields = yields.slice(0, params.limit) }` -/
def applyLimit (params : YieldQueryParams) (ys : List YieldOpportunity) :
    List YieldOpportunity :=
  match params.limit with
  | some n => if n ≠ 0 then ys.take n else ys
  | none => ys

/-- The filters of `queryYields`, in source order. -/
def filterYields (ys : List YieldOpportunity) (params : YieldQueryParams) :
    List YieldOpportunity :=
  applyLimit params
    (applyBlacklistFilter params
      (applyWhitelistFilter params
        (applyRiskFilter params
          (applyMinTvlFilter params
            (applyMaxApyFilter params
              (applyMinApyFilter params
                (applyTokenFilter params
                  (applyChainFilter params ys))))))))

structure QueryResult where
  data : List YieldOpportunity
  state : YieldServiceState
deriving DecidableEq

/-- `queryYields`: fetch (or read from cache) the superset, then apply the
filter pipeline. -/
def queryYields (st : YieldServiceState) (now : Nat)
    (defiLlamaYields yearnYields : List YieldOpportunity)
    (params : YieldQueryParams) : QueryResult :=
  let r := fetchAllYields st now defiLlamaYields yearnYields
  ⟨filterYields r.data params, r.state⟩

/-- `getBestYield`: `queryYields` with `limit: 1`; `yields[0] || null`. -/
def getBestYield (st : YieldServiceState) (now : Nat)
    (defiLlamaYields yearnYields : List YieldOpportunity)
    (chainId : Nat) (token : String) (riskTolerance : Option RiskTolerance)
    (minTvlUsd : Option Rat) : Option YieldOpportunity × YieldServiceState :=
  let r := queryYields st now defiLlamaYields yearnYields
    { chainId := some chainId, token := some token
      riskTolerance := riskTolerance, minTvlUsd := minTvlUsd, limit := some 1 }
  (r.data.head?, r.state)

/-! ## Route quoting, composition and execution (the LI.FI service)

Routes are opaque provider objects; only their identity matters to the
claims, so they are modelled as tagged values.  The provider's
`getRoutes`/`executeRoute` calls are oracles. -/

structure Route where
  tag : Nat
deriving DecidableEq

structure IntentRequest where
  fromChain : Nat
  fromToken : String
  fromAmount : String
  toChain : Nat
  toToken : String
  userAddress : String
  ensName : Option String := none
  slippage : Option Rat := none
deriving DecidableEq

/-- `TOKEN_ADDRESSES`: the static per-chain token address table from the
LI.FI service (mainnet 1, arbitrum 42161, base 8453, optimism 10). -/
def TOKEN_ADDRESSES : List (Nat × List (String × String)) :=
  [ (1,
     [ ("USDC", "0xA0b86991c6218b36c1d19D4a2e9Eb0cE3606eB48")
     , ("USDT", "0xdAC17F958D2ee523a2206206994597C13D831ec7")
     , ("DAI", "0x6B175474E89094C44Da98b954EedeAC495271d0F")
     , ("WETH", "0xC02aaA39b223FE8D0A0e5C4F27eAD9083C756Cc2")
     , ("WBTC", "0x2260FAC5E5542a773Aa44fBCfeDf7C193bc2C599") ])
  , (42161,
     [ ("USDC", "0xaf88d065e77c8cC2239327C5EDb3A432268e5831")
     , ("USDT", "0xFd086bC7CD5C481DCC9C85ebE478A1C0b69FCbb9")
     , ("DAI", "0xDA10009cBd5D07dd0CeCc66161FC93D7c9000da1")
     , ("WETH", "0x82aF49447D8a07e3bd95BD0d56f35241523fBab1") ])
  , (8453,
     [ ("USDC", "0x833589fCD6eDb6E08f4c7C32D4f71b54bdA02913")
     , ("USDT", "0xfde4C96c8593536E31F229EA8f37b2ADa2699bb2")
     , ("DAI", "0x50c5725949A6F0c72E6C4a641F24049A917DB0Cb")
     , ("WETH", "0x4200000000000000000000000000000000000006") ])
  , (10,
     [ ("USDC", "0x0b2C639c533813f4Aa9D7837CAf62653d097Ff85")
     , ("USDT", "0x94b008aA00579c1307B0EF2c499aD98a8ce58e58")
     , ("DAI", "0xDA10009cBd5D07dd0CeCc66161FC93D7c9000da1")
     , ("WETH", "0x4200000000000000000000000000000000000006") ]) ]

/-- `TOKEN_ADDRESSES[chain]?.[symbol.toUpperCase()]`. -/
def lookupTokenAddress (chainId : Nat) (symbol : String) : Option String :=
  match assocGet TOKEN_ADDRESSES chainId with
  | none => none
  | some table => assocGet table (toUpperStr symbol)

structure RouteCallResult where
  outcome : Except String (Option Route)
  networkCalled : Bool

/-- `getBestRoute`: both token symbols must be mapped on their chains
before the routing request is made; otherwise the thrown error propagates
(the catch logs and re-throws) and no network call happens.  With both
mapped, the provider is called: its thrown error propagates, an empty
route list yields `null`, otherwise the first (recommended-order) route is
the best route. -/
def getBestRoute (request : IntentRequest)
    (providerOutcome : Except String (List Route)) : RouteCallResult :=
  match lookupTokenAddress request.fromChain request.fromToken,
        lookupTokenAddress request.toChain request.toToken with
  | some _, some _ =>
    (match providerOutcome with
     | .error e => ⟨.error e, true⟩
     | .ok [] => ⟨.ok none, true⟩
     | .ok (r :: _) => ⟨.ok (some r), true⟩)
  | _, _ =>
    ⟨.error ("Token not supported on one of the chains: "
        ++ request.fromToken ++ " -> " ++ request.toToken), false⟩

structure TargetVault where
  address : String
  protocol : String
  depositFunction : String
  depositParams : List ParamDescriptor
deriving DecidableEq

structure ComposedIntent extends IntentRequest where
  targetVault : TargetVault
  expectedApy : Rat
  totalSteps : Nat
  estimatedGasUsd : Rat
deriving DecidableEq

/-- `composeIntentWithDeposit`: pure data combination.  A
`YieldOpportunity` always carries a deposit function and parameter list
(arrays are truthy in JavaScript even when empty, so the
`|| [fromAmount, userAddress]` fallback is unreachable for opportunities
built by the aggregator); the `|| 'deposit'` fallback fires exactly for an
empty function name. -/
def composeIntentWithDeposit (request : IntentRequest)
    (targetYield : YieldOpportunity) : ComposedIntent :=
  { request with
      targetVault :=
        { address := targetYield.vaultAddress
          protocol := targetYield.protocol
          depositFunction :=
            if targetYield.depositFunction = "" then "deposit"
            else targetYield.depositFunction
          depositParams := targetYield.depositParams }
      expectedApy := targetYield.apy
      totalSteps := 2  -- Bridge/Swap + Deposit
      estimatedGasUsd := 0 }

inductive StepType where
  | bridge
  | swap
  | approve
  | deposit
  | withdraw
deriving DecidableEq

inductive StepStatus where
  | pending
  | inProgress
  | completed
  | failed
deriving DecidableEq

structure ExecutionStep where
  type : StepType
  status : StepStatus
  chainId : Nat
  txHash : Option String := none
  explorerUrl : Option String := none
  message : String
  timestamp : Nat
deriving DecidableEq

inductive ExecutionStatus where
  | pending
  | executing
  | completed
  | failed
deriving DecidableEq

structure IntentExecution where
  id : String
  intent : ComposedIntent
  route : Route
  steps : List ExecutionStep
  status : ExecutionStatus
  error : Option String := none
  createdAt : Nat
  updatedAt : Nat
deriving DecidableEq

/-- `executeComposedIntent`: run the LI.FI route (an oracle whose thrown
error propagates), then return an execution record with an empty step list
and status `completed`.  `generatedId` stands for the random id. -/
def executeComposedIntent (composedIntent : ComposedIntent) (route : Route)
    (now : Nat) (generatedId : String)
    (routeExecution : Except String Route) : Except String IntentExecution :=
  match routeExecution with
  | .error e => .error e
  | .ok _ =>
    .ok { id := generatedId, intent := composedIntent, route := route
          steps := [], status := .completed
          createdAt := now, updatedAt := now }

/-! ## Intent lifecycle state machine (`src/src/hooks/useIntent.ts`)

Each `setState` call of the hook appends one state to a trace; the last
element of the trace is the state the hook is left in. -/

inductive IntentStep where
  | input
  | fetchingRoute
  | findingYield
  | composing
  | ready
  | executing
  | completed
  | failed
deriving DecidableEq

structure IntentState where
  step : IntentStep
  route : Option Route
  targetYield : Option YieldOpportunity
  composedIntent : Option ComposedIntent
  execution : Option IntentExecution
  error : Option String
deriving DecidableEq

def initialState : IntentState :=
  { step := .input, route := none, targetYield := none
    composedIntent := none, execution := none, error := none }

/-- JavaScript `Array.includes` applied to a string: strict equality, so
only string elements equal to the argument match. -/
def includesStr (l : List Json) (s : String) : Bool :=
  l.any (fun j => match j with | .str t => t == s | _ => false)

/-- `buildIntent`: fetch a route, find the best yield, reject a
blacklisted best match, compose.  The route and yield calls are oracles
(`.error` models a thrown exception, `.ok none` a null result); every
thrown error is caught by the surrounding `try` and recorded as the
`failed` state's message.  Returns the trace of states. -/
def buildIntent (st : IntentState) (request : IntentRequest)
    (preferences : UserPreferences)
    (routeOutcome : Except String (Option Route))
    (yieldOutcome : Except String (Option YieldOpportunity)) :
    List IntentState :=
  let s1 := { st with step := .fetchingRoute, error := none }
  match routeOutcome with
  | .error e => [s1, { s1 with step := .failed, error := some e }]
  | .ok none =>
    [s1,
     { s1 with
         step := .failed,
         error := some "No route found for this intent" }]
  | .ok (some route) =>
    let s2 := { s1 with route := some route, step := .findingYield }
    match yieldOutcome with
    | .error e => [s1, s2, { s2 with step := .failed, error := some e }]
    | .ok none =>
      [s1, s2,
       { s2 with
           step := .failed,
           error := some
             "No yield opportunities found matching your criteria on the destination chain" }]
    | .ok (some targetYield) =>
      if includesStr preferences.blacklistedProtocols targetYield.protocolSlug then
        [s1, s2,
         { s2 with
             step := .failed,
             error := some ("The best yield opportunity is from "
               ++ targetYield.protocol ++ ", which is in your blacklist") }]
      else
        let s3 := { s2 with targetYield := some targetYield, step := .composing }
        let composed := composeIntentWithDeposit request targetYield
        [s1, s2, s3, { s3 with composedIntent := some composed, step := .ready }]

/-- `executeIntent`: without both a route and a composed intent, fail
immediately (`'No intent to execute'`) and never call the execution
provider; otherwise move to `executing`, run the execution call (an
oracle), and settle on its outcome.  Returns the trace of states and
whether the execution call was made. -/
def executeIntent (st : IntentState)
    (executionOutcome : Except String IntentExecution) :
    List IntentState × Bool :=
  match st.route, st.composedIntent with
  | some _, some _ =>
    let s1 := { st with step := .executing, error := none }
    match executionOutcome with
    | .ok execution =>
      ([s1,
        { s1 with
            execution := some execution,
            step := if execution.status = .completed then .completed
                    else .failed }], true)
    | .error e =>
      ([s1, { s1 with step := .failed, error := some e }], true)
  | _, _ =>
    ([{ st with step := .failed, error := some "No intent to execute" }], false)

/-! ## Sample data (used by witnesses and counterexamples) -/

def sampleRequest : IntentRequest :=
  { fromChain := 1, fromToken := "USDC", fromAmount := "100"
    toChain := 8453, toToken := "USDC", userAddress := "0xuser" }

def fooRequest : IntentRequest :=
  { fromChain := 1, fromToken := "USDC", fromAmount := "100"
    toChain := 8453, toToken := "FOO", userAddress := "0xuser" }

def sampleOppLow : YieldOpportunity :=
  { id := "Base-aave-v3-USDC-0xpool1", protocol := "Aave V3"
    protocolSlug := "aave-v3", chainId := 8453, chainName := "Base"
    token := "USDC", tokenAddress := "0xusdc", vaultAddress := "0xpool1"
    apy := 3 / 100, tvlUsd := 2000000, riskLevel := .low
    depositFunction := "deposit"
    depositParams := [⟨"assets", "uint256"⟩, ⟨"receiver", "address"⟩]
    withdrawalFunction := "withdraw"
    withdrawalParams :=
      [⟨"assets", "uint256"⟩, ⟨"receiver", "address"⟩, ⟨"owner", "address"⟩]
    metadata :=
      { protocolName := "Aave V3", protocolIcon := "", tokenIcon := ""
        vaultName := "USDC Vault", isAudited := true } }

def sampleOppHigh : YieldOpportunity :=
  { id := "Base-pendle-USDC-0xpool2", protocol := "Pendle"
    protocolSlug := "pendle", chainId := 8453, chainName := "Base"
    token := "USDC", tokenAddress := "0xusdc", vaultAddress := "0xpool2"
    apy := 12 / 100, tvlUsd := 500000, riskLevel := .high
    depositFunction := "deposit"
    depositParams := [⟨"assets", "uint256"⟩, ⟨"receiver", "address"⟩]
    withdrawalFunction := "withdraw"
    withdrawalParams :=
      [⟨"assets", "uint256"⟩, ⟨"receiver", "address"⟩, ⟨"owner", "address"⟩]
    metadata :=
      { protocolName := "Pendle", protocolIcon := "", tokenIcon := ""
        vaultName := "USDC Pool", isAudited := true } }

/-! ## Theorems -/

/-- **C1.** For every orchestrator state whose route or composed intent is
absent, `executeIntent` fails immediately: the only state transition is to
`failed` with error message `'No intent to execute'`, no state in the
trace is `executing`, and the execution call to the routing provider is
not attempted (the `false` flag). -/
theorem C1_execute_without_intent_fails (st : IntentState)
    (outcome : Except String IntentExecution)
    (h : st.route = none ∨ st.composedIntent = none) :
    executeIntent st outcome
      = ([{ st with step := .failed, error := some "No intent to execute" }], false)
    ∧ ∀ s ∈ (executeIntent st outcome).1, s.step ≠ IntentStep.executing := by
  have hmain : executeIntent st outcome
      = ([{ st with step := .failed, error := some "No intent to execute" }],
         false) := by
    cases hr : st.route with
    | none => cases hc : st.composedIntent <;> simp [executeIntent, hr, hc]
    | some r =>
      cases hc : st.composedIntent with
      | none => simp [executeIntent, hr, hc]
      | some c => rcases h with h | h <;> simp_all
  refine ⟨hmain, ?_⟩
  rw [hmain]
  intro s hs
  rw [List.mem_singleton] at hs
  subst hs
  simp

/-- Witness for C1: the initial state has no route, and executing it fails
immediately without an execution call. -/
theorem C1_witness :
    (initialState.route = none ∨ initialState.composedIntent = none)
    ∧ (executeIntent initialState (.error "provider unreachable")
        = ([{ initialState with
                step := .failed,
                error := some "No intent to execute" }], false)
       ∧ ∀ s ∈ (executeIntent initialState (.error "provider unreachable")).1,
           s.step ≠ IntentStep.executing) :=
  ⟨Or.inl rfl,
   C1_execute_without_intent_fails initialState (.error "provider unreachable")
     (Or.inl rfl)⟩

/-- **C8.** For every route request whose source or destination token
symbol has no entry in the static per-chain address table, `getBestRoute`
fails with the input-validation error naming the token pair, and no
network call to the routing service is made. -/
theorem C8_unmapped_token_fails_before_network (request : IntentRequest)
    (providerOutcome : Except String (List Route))
    (h : lookupTokenAddress request.fromChain request.fromToken = none
       ∨ lookupTokenAddress request.toChain request.toToken = none) :
    getBestRoute request providerOutcome
      = ⟨.error ("Token not supported on one of the chains: "
            ++ request.fromToken ++ " -> " ++ request.toToken), false⟩ := by
  cases hf : lookupTokenAddress request.fromChain request.fromToken with
  | none => cases ht : lookupTokenAddress request.toChain request.toToken <;>
      simp [getBestRoute, hf, ht]
  | some a =>
    cases ht : lookupTokenAddress request.toChain request.toToken with
    | none => simp [getBestRoute, hf, ht]
    | some b => rcases h with h | h <;> simp_all

/-- Witness for C8: token `FOO` has no mapped address on Base (8453), so
the request fails with zero network calls even though the provider would
have returned a route. -/
theorem C8_witness :
    lookupTokenAddress fooRequest.toChain fooRequest.toToken = none
    ∧ getBestRoute fooRequest (.ok [⟨7⟩])
        = ⟨.error "Token not supported on one of the chains: USDC -> FOO",
           false⟩ :=
  ⟨rfl,
   C8_unmapped_token_fails_before_network fooRequest (.ok [⟨7⟩]) (Or.inr rfl)⟩

/-- **C9.** When the best-matching yield opportunity's protocol slug is in
the caller's blacklist, `buildIntent` aborts before composition: the trace
ends in `failed` with an error naming the offending protocol, no state
reaches `composing` or `ready`, and the composed intent is never set. -/
theorem C9_blacklisted_best_match_aborts (st : IntentState)
    (request : IntentRequest) (preferences : UserPreferences)
    (route : Route) (targetYield : YieldOpportunity)
    (hbl : includesStr preferences.blacklistedProtocols
             targetYield.protocolSlug = true) :
    buildIntent st request preferences (.ok (some route)) (.ok (some targetYield))
      = [ { st with step := .fetchingRoute, error := none },
          { st with step := .findingYield, error := none, route := some route },
          { st with
              step := .failed, route := some route,
              error := some ("The best yield opportunity is from "
                ++ targetYield.protocol ++ ", which is in your blacklist") } ]
    ∧ ∀ s ∈ buildIntent st request preferences (.ok (some route))
          (.ok (some targetYield)),
        s.step ≠ IntentStep.composing ∧ s.step ≠ IntentStep.ready
        ∧ s.composedIntent = st.composedIntent := by
  have hmain : buildIntent st request preferences (.ok (some route))
      (.ok (some targetYield))
      = [ { st with step := .fetchingRoute, error := none },
          { st with step := .findingYield, error := none, route := some route },
          { st with
              step := .failed, route := some route,
              error := some ("The best yield opportunity is from "
                ++ targetYield.protocol ++ ", which is in your blacklist") } ] := by
    simp [buildIntent, hbl]
  refine ⟨hmain, ?_⟩
  rw [hmain]
  intro s hs
  simp only [List.mem_cons, List.not_mem_nil, or_false] at hs
  rcases hs with hs | hs | hs <;> subst hs <;> exact ⟨by simp, by simp, rfl⟩

/-- Witness for C9: the best match is Pendle and `pendle` is blacklisted,
so the build fails with the message naming Pendle. -/
theorem C9_witness :
    includesStr [Json.str "pendle"] sampleOppHigh.protocolSlug = true
    ∧ (buildIntent initialState sampleRequest
        { DEFAULT_PREFERENCES with blacklistedProtocols := [Json.str "pendle"] }
        (.ok (some ⟨7⟩)) (.ok (some sampleOppHigh))
      = [ { initialState with step := .fetchingRoute, error := none },
          { initialState with
              step := .findingYield, error := none, route := some ⟨7⟩ },
          { initialState with
              step := .failed, route := some ⟨7⟩,
              error := some ("The best yield opportunity is from "
                ++ sampleOppHigh.protocol ++ ", which is in your blacklist") } ]
      ∧ ∀ s ∈ buildIntent initialState sampleRequest
            { DEFAULT_PREFERENCES with
                blacklistedProtocols := [Json.str "pendle"] }
            (.ok (some ⟨7⟩)) (.ok (some sampleOppHigh)),
          s.step ≠ IntentStep.composing ∧ s.step ≠ IntentStep.ready
          ∧ s.composedIntent = initialState.composedIntent) :=
  ⟨rfl,
   C9_blacklisted_best_match_aborts initialState sampleRequest
     { DEFAULT_PREFERENCES with blacklistedProtocols := [Json.str "pendle"] }
     ⟨7⟩ sampleOppHigh rfl⟩

/-- **C10.** Whenever `executeComposedIntent` returns without throwing,
the execution record has status `completed` and an empty step list;
consequently, for a state with a route and a composed intent, the
orchestrator can end in `failed` after `executing` only when the execution
call threw. -/
theorem C10_returned_execution_always_completed (st : IntentState) (r : Route)
    (c : ComposedIntent) (now : Nat) (generatedId : String)
    (routeExecution : Except String Route)
    (hr : st.route = some r) (hc : st.composedIntent = some c) :
    (∀ ex, executeComposedIntent c r now generatedId routeExecution = .ok ex →
        ex.status = ExecutionStatus.completed ∧ ex.steps = [])
    ∧ ((executeIntent st
          (executeComposedIntent c r now generatedId routeExecution)).1.getLast?.map
            IntentState.step = some IntentStep.failed →
        ∃ e, routeExecution = .error e) := by
  constructor
  · intro ex hex
    cases routeExecution with
    | error e => simp [executeComposedIntent] at hex
    | ok r' =>
      simp [executeComposedIntent] at hex
      rw [← hex]
      exact ⟨rfl, rfl⟩
  · intro hfail
    cases routeExecution with
    | error e => exact ⟨e, rfl⟩
    | ok r' => simp [executeComposedIntent, executeIntent, hr, hc] at hfail

/-- Witness for C10: with a route and a composed intent present and a
successful provider execution, the record is `completed` with no steps. -/
theorem C10_witness :
    (∀ ex, executeComposedIntent (composeIntentWithDeposit sampleRequest sampleOppLow)
        ⟨7⟩ 1000 "execid" (.ok ⟨7⟩) = .ok ex →
        ex.status = ExecutionStatus.completed ∧ ex.steps = [])
    ∧ ((executeIntent
          { initialState with
              step := .ready, route := some ⟨7⟩,
              composedIntent :=
                some (composeIntentWithDeposit sampleRequest sampleOppLow) }
          (executeComposedIntent (composeIntentWithDeposit sampleRequest sampleOppLow)
            ⟨7⟩ 1000 "execid" (.ok ⟨7⟩))).1.getLast?.map
            IntentState.step = some IntentStep.failed →
        ∃ e, (Except.ok ⟨7⟩ : Except String Route) = .error e) :=
  C10_returned_execution_always_completed
    { initialState with
        step := .ready, route := some ⟨7⟩,
        composedIntent :=
          some (composeIntentWithDeposit sampleRequest sampleOppLow) }
    ⟨7⟩ (composeIntentWithDeposit sampleRequest sampleOppLow) 1000 "execid"
    (.ok ⟨7⟩) rfl rfl

/-! ### Filter pipeline lemmas -/

theorem applyChainFilter_sublist (params : YieldQueryParams)
    (ys : List YieldOpportunity) : (applyChainFilter params ys).Sublist ys := by
  unfold applyChainFilter
  repeat' split
  all_goals first | apply List.filter_sublist | exact List.Sublist.refl ys

theorem applyTokenFilter_sublist (params : YieldQueryParams)
    (ys : List YieldOpportunity) : (applyTokenFilter params ys).Sublist ys := by
  unfold applyTokenFilter
  repeat' split
  all_goals first | apply List.filter_sublist | exact List.Sublist.refl ys

theorem applyMinApyFilter_sublist (params : YieldQueryParams)
    (ys : List YieldOpportunity) : (applyMinApyFilter params ys).Sublist ys := by
  unfold applyMinApyFilter
  repeat' split
  all_goals first | apply List.filter_sublist | exact List.Sublist.refl ys

theorem applyMaxApyFilter_sublist (params : YieldQueryParams)
    (ys : List YieldOpportunity) : (applyMaxApyFilter params ys).Sublist ys := by
  unfold applyMaxApyFilter
  repeat' split
  all_goals first | apply List.filter_sublist | exact List.Sublist.refl ys

theorem applyMinTvlFilter_sublist (params : YieldQueryParams)
    (ys : List YieldOpportunity) : (applyMinTvlFilter params ys).Sublist ys := by
  unfold applyMinTvlFilter
  repeat' split
  all_goals first | apply List.filter_sublist | exact List.Sublist.refl ys

theorem applyRiskFilter_sublist (params : YieldQueryParams)
    (ys : List YieldOpportunity) : (applyRiskFilter params ys).Sublist ys := by
  unfold applyRiskFilter
  repeat' split
  all_goals first | apply List.filter_sublist | exact List.Sublist.refl ys

theorem applyWhitelistFilter_sublist (params : YieldQueryParams)
    (ys : List YieldOpportunity) : (applyWhitelistFilter params ys).Sublist ys := by
  unfold applyWhitelistFilter
  repeat' split
  all_goals first | apply List.filter_sublist | exact List.Sublist.refl ys

theorem applyBlacklistFilter_sublist (params : YieldQueryParams)
    (ys : List YieldOpportunity) : (applyBlacklistFilter params ys).Sublist ys := by
  unfold applyBlacklistFilter
  repeat' split
  all_goals first | apply List.filter_sublist | exact List.Sublist.refl ys

theorem applyLimit_sublist (params : YieldQueryParams)
    (ys : List YieldOpportunity) : (applyLimit params ys).Sublist ys := by
  unfold applyLimit
  repeat' split
  all_goals first | apply List.take_sublist | exact List.Sublist.refl ys

/-- The whole filter pipeline returns a sublist of its input: every filter
and the limit keep a subsequence in the original order. -/
theorem filterYields_sublist (ys : List YieldOpportunity)
    (params : YieldQueryParams) : (filterYields ys params).Sublist ys := by
  unfold filterYields
  exact ((applyLimit_sublist _ _).trans ((applyBlacklistFilter_sublist _ _).trans
    ((applyWhitelistFilter_sublist _ _).trans ((applyRiskFilter_sublist _ _).trans
    ((applyMinTvlFilter_sublist _ _).trans ((applyMaxApyFilter_sublist _ _).trans
    ((applyMinApyFilter_sublist _ _).trans ((applyTokenFilter_sublist _ _).trans
    (applyChainFilter_sublist _ _)))))))))

/-- Anything surviving the blacklist stage has its slug outside the
lowercased blacklist. -/
theorem applyBlacklistFilter_excludes {params : YieldQueryParams}
    {bl : List String} (hbl : params.blacklistedProtocols = some bl)
    (hne : bl ≠ []) {ys : List YieldOpportunity} {y : YieldOpportunity}
    (hy : y ∈ applyBlacklistFilter params ys) :
    ¬ y.protocolSlug ∈ bl.map toLowerStr := by
  simp only [applyBlacklistFilter, hbl, if_pos hne] at hy
  have hp := (List.mem_filter.mp hy).2
  intro hmem
  rw [Bool.not_eq_true'] at hp
  have helem : (bl.map toLowerStr).contains y.protocolSlug = true := by
    simpa [List.contains] using List.elem_iff.mpr hmem
  rw [helem] at hp
  exact Bool.noConfusion hp

/-! ### Sorting lemmas -/

/-- The comparator `(a, b) => b.apy - a.apy` is transitive and total, so
the merged superset is pairwise descending in APY. -/
theorem sortByApyDesc_sorted (ys : List YieldOpportunity) :
    (sortByApyDesc ys).Pairwise
      (fun a b : YieldOpportunity => b.apy ≤ a.apy) := by
  have h := @List.sorted_mergeSort YieldOpportunity
    (fun a b : YieldOpportunity => decide (b.apy ≤ a.apy))
    (fun a b c hab hbc => by
      simp only [decide_eq_true_eq] at *
      exact le_trans hbc hab)
    (fun a b => by
      simp only [Bool.or_eq_true, decide_eq_true_eq]
      exact le_total b.apy a.apy)
    ys
  exact h.imp (fun hab => by simpa using hab)

/-- The cache invariant: any entry stored under the fixed key holds a
pairwise APY-descending list.  It holds for a fresh service and is
preserved by `fetchAllYields`, which only ever stores sorted data. -/
def cacheSorted (st : YieldServiceState) : Prop :=
  ∀ e, assocGet st.cache "all-yields" = some e →
    e.data.Pairwise (fun a b : YieldOpportunity => b.apy ≤ a.apy)

theorem fetchAllYields_data_sorted (st : YieldServiceState) (now : Nat)
    (dl yn : List YieldOpportunity) (hst : cacheSorted st) :
    (fetchAllYields st now dl yn).data.Pairwise
      (fun a b : YieldOpportunity => b.apy ≤ a.apy) := by
  cases hg : assocGet st.cache "all-yields" with
  | none =>
    simp only [fetchAllYields, hg]
    exact sortByApyDesc_sorted _
  | some e =>
    simp only [fetchAllYields, hg]
    split
    · exact hst e hg
    · exact sortByApyDesc_sorted _

/-! ### Main yield-query theorems -/

/-- **C7.** The risk-tolerance-derived allowed risk-level sets are
`{low} ⊂ {low, medium} ⊂ {low, medium, high}` (strict inclusions), and a
query whose only filter is a risk tolerance keeps exactly the
opportunities whose risk level lies in the set for that tolerance. -/
theorem C7_risk_level_chain_and_filter :
    ((∀ l, l ∈ allowedRiskLevels .conservative → l ∈ allowedRiskLevels .moderate)
      ∧ ∃ l, l ∈ allowedRiskLevels .moderate ∧ l ∉ allowedRiskLevels .conservative)
    ∧ ((∀ l, l ∈ allowedRiskLevels .moderate → l ∈ allowedRiskLevels .aggressive)
      ∧ ∃ l, l ∈ allowedRiskLevels .aggressive ∧ l ∉ allowedRiskLevels .moderate)
    ∧ ∀ (st : YieldServiceState) (now : Nat)
        (dl yn : List YieldOpportunity) (t : RiskTolerance),
        (queryYields st now dl yn { riskTolerance := some t }).data
          = (fetchAllYields st now dl yn).data.filter
              (fun y => (allowedRiskLevels t).contains y.riskLevel) := by
  refine ⟨⟨?_, ⟨.medium, by decide, by decide⟩⟩,
          ⟨?_, ⟨.high, by decide, by decide⟩⟩, ?_⟩
  · intro l; cases l <;> decide
  · intro l; cases l <;> decide
  · intro st now dl yn t
    rfl

/-- Witness for C7: `low` is allowed for `conservative`, hence, by the
inclusion, also for `moderate`. -/
theorem C7_witness :
    RiskLevel.low ∈ allowedRiskLevels .conservative
    ∧ RiskLevel.low ∈ allowedRiskLevels .moderate :=
  ⟨by decide, C7_risk_level_chain_and_filter.1.1 .low (by decide)⟩

/-- **C2.** With a non-empty blacklist, no opportunity whose (lowercase)
protocol slug is in the blacklist ever appears in a `queryYields` result —
for every parameter set, in particular ones whose whitelist also contains
that slug: the blacklist stage runs after the whitelist stage and its
exclusions survive the limit stage. -/
theorem C2_blacklist_precedence (st : YieldServiceState) (now : Nat)
    (dl yn : List YieldOpportunity) (params : YieldQueryParams)
    (bl : List String) (y : YieldOpportunity)
    (hbl : params.blacklistedProtocols = some bl) (hne : bl ≠ [])
    (hmem : y.protocolSlug ∈ bl)
    (hlow : toLowerStr y.protocolSlug = y.protocolSlug) :
    y ∉ (queryYields st now dl yn params).data := by
  intro hy
  have hy' : y ∈ applyBlacklistFilter params
      (applyWhitelistFilter params
        (applyRiskFilter params
          (applyMinTvlFilter params
            (applyMaxApyFilter params
              (applyMinApyFilter params
                (applyTokenFilter params
                  (applyChainFilter params
                    (fetchAllYields st now dl yn).data))))))) :=
    (applyLimit_sublist params _).subset hy
  have hnot := applyBlacklistFilter_excludes hbl hne hy'
  apply hnot
  have := List.mem_map_of_mem toLowerStr hmem
  rwa [hlow] at this

/-- Witness for C2: `pendle` is both whitelisted and blacklisted, and the
Pendle opportunity is absent from the query result. -/
theorem C2_witness :
    ({ whitelistedProtocols := some ["pendle"],
       blacklistedProtocols := some ["pendle"] } : YieldQueryParams).blacklistedProtocols
        = some ["pendle"]
    ∧ sampleOppHigh.protocolSlug ∈ ["pendle"]
    ∧ toLowerStr sampleOppHigh.protocolSlug = sampleOppHigh.protocolSlug
    ∧ sampleOppHigh ∉ (queryYields ⟨[]⟩ 0 [sampleOppLow, sampleOppHigh] []
        { whitelistedProtocols := some ["pendle"],
          blacklistedProtocols := some ["pendle"] }).data :=
  ⟨rfl, by decide, rfl,
   C2_blacklist_precedence ⟨[]⟩ 0 [sampleOppLow, sampleOppHigh] []
     { whitelistedProtocols := some ["pendle"],
       blacklistedProtocols := some ["pendle"] }
     ["pendle"] sampleOppHigh rfl (by decide) (by decide) rfl⟩

/-- **C5.** For every parameter set and cache generation (any state whose
cached superset is APY-descending — the only supersets `fetchAllYields`
ever stores), the query result is a sublist of the `fetchAllYields`
superset (hence every returned opportunity is in the superset and the
relative order is the superset's order), and it is pairwise descending in
APY. -/
theorem C5_query_sublist_of_superset (st : YieldServiceState) (now : Nat)
    (dl yn : List YieldOpportunity) (params : YieldQueryParams)
    (hst : cacheSorted st) :
    ((queryYields st now dl yn params).data).Sublist
        (fetchAllYields st now dl yn).data
    ∧ ((queryYields st now dl yn params).data).Pairwise
        (fun a b : YieldOpportunity => b.apy ≤ a.apy) := by
  have hsub : ((queryYields st now dl yn params).data).Sublist
      (fetchAllYields st now dl yn).data :=
    filterYields_sublist (fetchAllYields st now dl yn).data params
  exact ⟨hsub, (fetchAllYields_data_sorted st now dl yn hst).sublist hsub⟩

/-- Witness for C5: a fresh (empty-cache) service, two opportunities,
default parameters. -/
theorem C5_witness :
    cacheSorted ⟨[]⟩
    ∧ ((queryYields ⟨[]⟩ 0 [sampleOppLow, sampleOppHigh] [] {}).data).Sublist
        (fetchAllYields ⟨[]⟩ 0 [sampleOppLow, sampleOppHigh] []).data
    ∧ ((queryYields ⟨[]⟩ 0 [sampleOppLow, sampleOppHigh] [] {}).data).Pairwise
        (fun a b : YieldOpportunity => b.apy ≤ a.apy) := by
  have hst : cacheSorted ⟨[]⟩ := by
    intro e h
    simp [assocGet] at h
  exact ⟨hst,
    C5_query_sublist_of_superset ⟨[]⟩ 0 [sampleOppLow, sampleOppHigh] [] {} hst⟩

/-! ### Cache lemmas -/

theorem assocGet_assocSet_self {α β : Type} [DecidableEq α]
    (m : List (α × β)) (k : α) (v : β) :
    assocGet (assocSet m k v) k = some v := by
  induction m with
  | nil => simp [assocSet, assocGet]
  | cons p rest ih =>
    obtain ⟨k', v'⟩ := p
    by_cases h : k' = k
    · simp [assocSet, assocGet, h]
    · simp [assocSet, assocGet, h, ih]

/-- A `fetchAllYields` call that did fetch from the sources returns the
merged sorted superset and caches it under `all-yields` at the call
time. -/
theorem fetchAllYields_fetched_state (st : YieldServiceState) (now : Nat)
    (dl yn : List YieldOpportunity)
    (hf : (fetchAllYields st now dl yn).fetchedFromSources = true) :
    fetchAllYields st now dl yn
      = ⟨sortByApyDesc (dl ++ yn),
         ⟨assocSet st.cache "all-yields" ⟨sortByApyDesc (dl ++ yn), now⟩⟩,
         true⟩ := by
  cases hg : assocGet st.cache "all-yields" with
  | none => simp [fetchAllYields, hg]
  | some e =>
    by_cases hfresh : now - e.timestamp < CACHE_TTL
    · exfalso
      simp [fetchAllYields, hg, hfresh] at hf
    · simp [fetchAllYields, hg, hfresh]

/-- Counterexample to **C6** as stated.  Three calls: a cold-cache call at
`t = 0` (which caches), a call at `t = 240000` (4 min, cache hit), and a
call at `t = 420000`.  The second and third calls are separated by 3
minutes — less than the 5-minute TTL — with no intervening `clearCache`,
yet the third call refetches from the sources (the TTL is measured from
the cache write at `t = 0`, not from the previous call) and can return
different data. -/
theorem C6_counterexample :
    420000 - 240000 < CACHE_TTL
    ∧ (fetchAllYields (fetchAllYields ⟨[]⟩ 0 [sampleOppLow] []).state
        240000 [sampleOppLow] []).fetchedFromSources = false
    ∧ (fetchAllYields (fetchAllYields (fetchAllYields ⟨[]⟩ 0 [sampleOppLow] []).state
          240000 [sampleOppLow] []).state 420000 [sampleOppHigh] []).fetchedFromSources
        = true
    ∧ (fetchAllYields (fetchAllYields (fetchAllYields ⟨[]⟩ 0 [sampleOppLow] []).state
          240000 [sampleOppLow] []).state 420000 [sampleOppHigh] []).data
        ≠ (fetchAllYields (fetchAllYields ⟨[]⟩ 0 [sampleOppLow] []).state
            240000 [sampleOppLow] []).data := by
  have h1 : fetchAllYields ⟨[]⟩ 0 [sampleOppLow] []
      = ⟨[sampleOppLow], ⟨[("all-yields", ⟨[sampleOppLow], 0⟩)]⟩, true⟩ := by
    simp [fetchAllYields, assocGet, assocSet, sortByApyDesc]
  have h2 : fetchAllYields (⟨[("all-yields", ⟨[sampleOppLow], 0⟩)]⟩ : YieldServiceState)
      240000 [sampleOppLow] []
      = ⟨[sampleOppLow], ⟨[("all-yields", ⟨[sampleOppLow], 0⟩)]⟩, false⟩ := by
    simp [fetchAllYields, assocGet, CACHE_TTL]
  have h3 : fetchAllYields (⟨[("all-yields", ⟨[sampleOppLow], 0⟩)]⟩ : YieldServiceState)
      420000 [sampleOppHigh] []
      = ⟨[sampleOppHigh], ⟨[("all-yields", ⟨[sampleOppHigh], 420000⟩)]⟩, true⟩ := by
    simp [fetchAllYields, assocGet, assocSet, sortByApyDesc, CACHE_TTL]
  refine ⟨by norm_num [CACHE_TTL], ?_, ?_, ?_⟩
  · simp only [h1, h2]
  · simp only [h1, h2, h3]
  · simp only [h1, h2, h3]
    decide

/-- **C6 (amended).** When the earlier of the two calls actually fetched
from the sources (populating the cache at its own timestamp) and the
later call occurs within the 5-minute TTL of that write, with no
intervening `clearCache`, the later call returns the identical cached
list, leaves the state unchanged, and issues no source fetches — whatever
the sources would now return; the superset is stored under the single
fixed key `all-yields`. -/
theorem C6_cache_idempotence_after_write (st : YieldServiceState)
    (t1 t2 : Nat) (dl yn dl' yn' : List YieldOpportunity)
    (hfetched : (fetchAllYields st t1 dl yn).fetchedFromSources = true)
    (_h12 : t1 ≤ t2) (hlt : t2 - t1 < CACHE_TTL) :
    fetchAllYields (fetchAllYields st t1 dl yn).state t2 dl' yn'
      = ⟨(fetchAllYields st t1 dl yn).data,
         (fetchAllYields st t1 dl yn).state, false⟩
    ∧ assocGet (fetchAllYields st t1 dl yn).state.cache "all-yields"
      = some ⟨(fetchAllYields st t1 dl yn).data, t1⟩ := by
  have h1 := fetchAllYields_fetched_state st t1 dl yn hfetched
  rw [h1]
  have hget : assocGet
      (assocSet st.cache "all-yields" ⟨sortByApyDesc (dl ++ yn), t1⟩)
      "all-yields" = some ⟨sortByApyDesc (dl ++ yn), t1⟩ :=
    assocGet_assocSet_self _ _ _
  refine ⟨?_, hget⟩
  simp [fetchAllYields, hget, hlt]

/-- Witness for the amended C6: a cold-cache call at `t = 0` followed by a
call at `t = 240000` (4 minutes later) with different would-be source
data; the second call returns the first call's data untouched. -/
theorem C6_witness :
    ((fetchAllYields ⟨[]⟩ 0 [sampleOppLow] []).fetchedFromSources = true
      ∧ (0 : Nat) ≤ 240000 ∧ 240000 - 0 < CACHE_TTL)
    ∧ (fetchAllYields (fetchAllYields ⟨[]⟩ 0 [sampleOppLow] []).state
          240000 [sampleOppHigh] []
        = ⟨(fetchAllYields ⟨[]⟩ 0 [sampleOppLow] []).data,
           (fetchAllYields ⟨[]⟩ 0 [sampleOppLow] []).state, false⟩
      ∧ assocGet (fetchAllYields ⟨[]⟩ 0 [sampleOppLow] []).state.cache "all-yields"
        = some ⟨(fetchAllYields ⟨[]⟩ 0 [sampleOppLow] []).data, 0⟩) :=
  ⟨⟨rfl, by norm_num, by norm_num [CACHE_TTL]⟩,
   C6_cache_idempotence_after_write ⟨[]⟩ 0 240000 [sampleOppLow] []
     [sampleOppHigh] [] rfl (by norm_num) (by norm_num [CACHE_TTL])⟩

/-! ### Profile resolution theorems -/

/-- **C4.** For every handle whose `strategyFollow` record is truthy,
`getProfile` returns a profile whose preferences are parsed from the
delegate's records — not the handle's own — with
`isFollowingStrategy = true` and `followedStrategyOwner` the delegate
handle.  The equality holds whatever the delegate's own `strategyFollow`
record is: delegation is followed exactly one level. -/
theorem C4_strategy_follow_one_level (env : EnsEnv) (name addr follow : String)
    (hres : env.resolve (trimStr (toLowerStr name)) = some addr)
    (hfollow : (getAllTextRecords env (trimStr (toLowerStr name))).strategyFollow
        = some follow)
    (hne : follow ≠ "") :
    getProfile env name = some
      { name := trimStr (toLowerStr name), address := addr
        avatar := env.avatar (trimStr (toLowerStr name))
        preferences := parsePreferences (getAllTextRecords env follow)
        isFollowingStrategy := true
        followedStrategyOwner := some follow } := by
  simp [getProfile, hres, hfollow, hne]

def aliceRecords : ENSTextRecords :=
  { riskTolerance := some "conservative", maxSlippageBps := some "50"
    strategyFollow := some "carol.eth" }

def bobRecords : ENSTextRecords :=
  { strategyFollow := some "alice.eth", maxSlippageBps := some "999" }

def carolRecords : ENSTextRecords :=
  { riskTolerance := some "aggressive" }

def sampleEnv : EnsEnv :=
  { resolve := fun n =>
      if n = "bob.eth" then some "0xb0b"
      else if n = "alice.eth" then some "0xa11ce" else none
    records := fun n =>
      if n = "bob.eth" then bobRecords
      else if n = "alice.eth" then aliceRecords
      else if n = "carol.eth" then carolRecords else {}
    avatar := fun _ => none }

/-- Witness for C4: `bob.eth` follows `alice.eth`, whose own records in
turn follow `carol.eth`; bob's resolved preferences are alice's parsed
preferences (conservative, 50 bps — not bob's 999 bps and not carol's
aggressive tolerance), showing the single level of indirection. -/
theorem C4_witness :
    (sampleEnv.resolve (trimStr (toLowerStr "Bob.eth")) = some "0xb0b"
      ∧ (getAllTextRecords sampleEnv (trimStr (toLowerStr "Bob.eth"))).strategyFollow
          = some "alice.eth"
      ∧ (getAllTextRecords sampleEnv "alice.eth").strategyFollow = some "carol.eth")
    ∧ getProfile sampleEnv "Bob.eth" = some
        { name := trimStr (toLowerStr "Bob.eth"), address := "0xb0b"
          avatar := sampleEnv.avatar (trimStr (toLowerStr "Bob.eth"))
          preferences := parsePreferences (getAllTextRecords sampleEnv "alice.eth")
          isFollowingStrategy := true
          followedStrategyOwner := some "alice.eth" }
    ∧ (parsePreferences (getAllTextRecords sampleEnv "alice.eth")).riskTolerance
        = RiskTolerance.conservative
    ∧ (parsePreferences (getAllTextRecords sampleEnv "alice.eth")).maxSlippageBps = 50 :=
  ⟨⟨rfl, rfl, rfl⟩,
   C4_strategy_follow_one_level sampleEnv "Bob.eth" "0xb0b" "alice.eth"
     rfl rfl (by decide),
   rfl, rfl⟩

/-! ### Per-field parse extractors

For each preference field, the value its record would contribute:
`some v` when the record is present, truthy and parses (with the
range/enum checks of the corresponding block of `parsePreferences`),
`none` otherwise.  Each extractor restates one block's success condition;
the characterization lemmas below prove that `parsePreferences` resolves
each field to its extractor's value, falling back per-field. -/

def parseChainsField : Option String → Option (List String)
  | some s =>
    if s = "" then none else
    match jsonParse s with
    | some (.arr elems) =>
      (Json.asStringList elems).map (fun l => l.map toLowerStr)
    | _ => none
  | none => none

def parseRiskField : Option String → Option RiskTolerance
  | some s => if s = "" then none else parseRiskToleranceStr s
  | none => none

def parseSlippageField : Option String → Option Int
  | some s =>
    if s = "" then none else
    match parseIntJs s with
    | some n => if 0 < n ∧ n ≤ 1000 then some n else none
    | none => none
  | none => none

def parseActionField : Option String → Option DefaultAction
  | some s => if s = "" then none else parseDefaultActionStr s
  | none => none

def parseProtocolListField : Option String → Option (List Json)
  | some s =>
    if s = "" then none else
    match jsonParse s with
    | some (.arr protocols) => some protocols
    | _ => none
  | none => none

def parseLiquidityField : Option String → Option Int
  | some s =>
    if s = "" then none else
    match parseIntJs s with
    | some n => if 0 ≤ n then some n else none
    | none => none
  | none => none

def parseFollowField : Option String → Option String
  | some s => if s = "" then none else some s
  | none => none

def parseRebalanceField : Option String → Option Bool
  | some s => if s = "" then none else some (s = "true")
  | none => none

def parseNotifsField : Option String → Option Json
  | some s =>
    if s = "" then none else
    match jsonParse s with
    | some notifs => if notifs.isObjectTypeof then some notifs else none
    | none => none
  | none => none

/-! ### Step characterization lemmas -/

theorem stepPreferredChains_eq (r : ENSTextRecords) (p : UserPreferences) :
    stepPreferredChains r p
      = { p with preferredChains :=
            (parseChainsField r.preferredChains).getD p.preferredChains } := by
  unfold stepPreferredChains parseChainsField
  repeat' split
  all_goals simp_all

theorem stepRiskTolerance_eq (r : ENSTextRecords) (p : UserPreferences) :
    stepRiskTolerance r p
      = { p with
            riskTolerance :=
              (parseRiskField r.riskTolerance).getD p.riskTolerance,
            whitelistedProtocols :=
              (parseRiskField r.riskTolerance).elim p.whitelistedProtocols
                (fun risk => (RISK_TOLERANCE_MAP risk).map Json.str) } := by
  unfold stepRiskTolerance parseRiskField
  repeat' split
  all_goals simp_all

theorem stepMaxSlippage_eq (r : ENSTextRecords) (p : UserPreferences) :
    stepMaxSlippage r p
      = { p with maxSlippageBps :=
            (parseSlippageField r.maxSlippageBps).getD p.maxSlippageBps } := by
  unfold stepMaxSlippage parseSlippageField
  repeat' split
  all_goals simp_all

theorem stepDefaultAction_eq (r : ENSTextRecords) (p : UserPreferences) :
    stepDefaultAction r p
      = { p with defaultAction :=
            (parseActionField r.defaultAction).getD p.defaultAction } := by
  unfold stepDefaultAction parseActionField
  repeat' split
  all_goals simp_all

theorem stepWhitelisted_eq (r : ENSTextRecords) (p : UserPreferences) :
    stepWhitelisted r p
      = { p with
            whitelistedProtocols :=
              (parseProtocolListField r.whitelistedProtocols).getD
                p.whitelistedProtocols } := by
  unfold stepWhitelisted parseProtocolListField
  repeat' split
  all_goals simp_all

theorem stepBlacklisted_eq (r : ENSTextRecords) (p : UserPreferences) :
    stepBlacklisted r p
      = { p with
            blacklistedProtocols :=
              (parseProtocolListField r.blacklistedProtocols).getD
                p.blacklistedProtocols } := by
  unfold stepBlacklisted parseProtocolListField
  repeat' split
  all_goals simp_all

theorem stepMinLiquidity_eq (r : ENSTextRecords) (p : UserPreferences) :
    stepMinLiquidity r p
      = { p with minLiquidityUsd :=
            (parseLiquidityField r.minLiquidityUsd).getD p.minLiquidityUsd } := by
  unfold stepMinLiquidity parseLiquidityField
  repeat' split
  all_goals simp_all

theorem stepStrategyFollow_eq (r : ENSTextRecords) (p : UserPreferences) :
    stepStrategyFollow r p
      = { p with strategyFollow :=
            (parseFollowField r.strategyFollow).elim p.strategyFollow some } := by
  unfold stepStrategyFollow parseFollowField
  repeat' split
  all_goals simp_all

theorem stepAutoRebalance_eq (r : ENSTextRecords) (p : UserPreferences) :
    stepAutoRebalance r p
      = { p with autoRebalance :=
            (parseRebalanceField r.autoRebalance).getD p.autoRebalance } := by
  unfold stepAutoRebalance parseRebalanceField
  repeat' split
  all_goals simp_all

theorem stepNotificationPrefs_eq (r : ENSTextRecords) (p : UserPreferences) :
    stepNotificationPrefs r p
      = { p with notificationPrefs :=
            (parseNotifsField r.notificationPrefs).getD p.notificationPrefs } := by
  unfold stepNotificationPrefs parseNotifsField
  repeat' split
  all_goals simp_all

/-! ### C3: counterexample and amended theorem -/

def badWhitelistRecords : ENSTextRecords :=
  { riskTolerance := some "conservative", whitelistedProtocols := some "notjson" }

/-- Counterexample to **C3** as stated.  The record map has a valid
`riskTolerance` of `conservative` and an unparseable `whitelistedProtocols`
record (`notjson` is not JSON): the claim says the whitelist must then
resolve to its schema default `[]`, but `parsePreferences` leaves the
risk-tolerance-derived whitelist in place. -/
theorem C3_counterexample :
    jsonParse "notjson" = none
    ∧ badWhitelistRecords.whitelistedProtocols = some "notjson"
    ∧ (parsePreferences badWhitelistRecords).whitelistedProtocols
        = [Json.str "aave-v3", Json.str "compound-v3", Json.str "morpho",
           Json.str "spark"]
    ∧ (parsePreferences badWhitelistRecords).whitelistedProtocols
        ≠ DEFAULT_PREFERENCES.whitelistedProtocols := by
  refine ⟨rfl, rfl, rfl, ?_⟩
  intro h
  rw [show (parsePreferences badWhitelistRecords).whitelistedProtocols
      = [Json.str "aave-v3", Json.str "compound-v3", Json.str "morpho",
         Json.str "spark"] from rfl,
    show DEFAULT_PREFERENCES.whitelistedProtocols = [] from rfl] at h
  exact List.noConfusion h

set_option maxHeartbeats 1000000 in
/-- **C3 (amended).** Every resolved preference field is a function of its
own record only and falls back to its schema default when the record is
absent/unparseable — with one exception the code forces: a valid
`riskTolerance` record sets `whitelistedProtocols` to the risk-derived
protocol set, and that (not the schema default) is what an absent or
unparseable whitelist record leaves in place.  In particular a
`maxSlippageBps` record of `"1500"` (above the 1000 cap) resolves to the
default 100. -/
theorem C3_per_field_fallback (records : ENSTextRecords) :
    ((parsePreferences records).preferredChains
        = (parseChainsField records.preferredChains).getD
            DEFAULT_PREFERENCES.preferredChains)
    ∧ ((parsePreferences records).riskTolerance
        = (parseRiskField records.riskTolerance).getD
            DEFAULT_PREFERENCES.riskTolerance)
    ∧ ((parsePreferences records).maxSlippageBps
        = (parseSlippageField records.maxSlippageBps).getD
            DEFAULT_PREFERENCES.maxSlippageBps)
    ∧ ((parsePreferences records).defaultAction
        = (parseActionField records.defaultAction).getD
            DEFAULT_PREFERENCES.defaultAction)
    ∧ ((parsePreferences records).whitelistedProtocols
        = (parseProtocolListField records.whitelistedProtocols).getD
            ((parseRiskField records.riskTolerance).elim
              DEFAULT_PREFERENCES.whitelistedProtocols
              (fun risk => (RISK_TOLERANCE_MAP risk).map Json.str)))
    ∧ ((parsePreferences records).blacklistedProtocols
        = (parseProtocolListField records.blacklistedProtocols).getD
            DEFAULT_PREFERENCES.blacklistedProtocols)
    ∧ ((parsePreferences records).minLiquidityUsd
        = (parseLiquidityField records.minLiquidityUsd).getD
            DEFAULT_PREFERENCES.minLiquidityUsd)
    ∧ ((parsePreferences records).strategyFollow
        = (parseFollowField records.strategyFollow).elim
            DEFAULT_PREFERENCES.strategyFollow some)
    ∧ ((parsePreferences records).autoRebalance
        = (parseRebalanceField records.autoRebalance).getD
            DEFAULT_PREFERENCES.autoRebalance)
    ∧ ((parsePreferences records).notificationPrefs
        = (parseNotifsField records.notificationPrefs).getD
            DEFAULT_PREFERENCES.notificationPrefs)
    ∧ (records.maxSlippageBps = some "1500" →
        (parsePreferences records).maxSlippageBps = 100) := by
  unfold parsePreferences
  simp only [stepNotificationPrefs_eq, stepAutoRebalance_eq, stepStrategyFollow_eq,
    stepMinLiquidity_eq, stepBlacklisted_eq, stepWhitelisted_eq,
    stepDefaultAction_eq, stepMaxSlippage_eq, stepRiskTolerance_eq,
    stepPreferredChains_eq]
  repeat' apply And.intro
  all_goals first
    | rfl
    | trivial
    | (intro h
       rw [h]
       rfl)

/-- Witness for the amended C3: the out-of-range slippage record `"1500"`
resolves to the default 100. -/
theorem C3_witness :
    ({ maxSlippageBps := some "1500" } : ENSTextRecords).maxSlippageBps
        = some "1500"
    ∧ (parsePreferences { maxSlippageBps := some "1500" }).maxSlippageBps = 100 :=
  ⟨rfl,
   (C3_per_field_fallback
     { maxSlippageBps := some "1500" }).2.2.2.2.2.2.2.2.2.2 rfl⟩

end DeFiButler
